import Mathlib

/-!
Verification development for the lyrlib-api request-orchestration layer:
a shallow embedding in Lean 4 of the TTL cache (src/cache.ts), the
fixed-window rate limiter (src/rateLimiter.ts), the formatting /
similarity / validation utilities (src/utils.ts) and the relevant slice
of the orchestrating client (src/client.ts), together with theorems
settling the specification's claims about them.

Conventions of the embedding:
- JavaScript numbers holding timestamps and counters are modelled as
  `Int` where sign matters (rate-limiter arithmetic) and as `Nat` where
  the specification types the quantity as a duration or timestamp
  (cache TTLs, lyric start offsets).
- Throwing code is modelled with `Except`; mutation is explicit state
  passing.
- JavaScript string primitives (`trim`, `toLowerCase`, lexicographic
  `sort`) are re-implemented over `String.data` so that every
  definition evaluates inside the kernel; `toLowerCase` is modelled on
  the ASCII range, where it agrees with JavaScript.
-/

/-- Character-level model of JavaScript `toLowerCase` (ASCII range). -/
def jsToLowerChar (c : Char) : Char :=
  if 65 ≤ c.toNat ∧ c.toNat ≤ 90 then Char.ofNat (c.toNat + 32) else c

/-- Model of JavaScript `String.prototype.toLowerCase`. -/
def jsToLower (s : String) : String :=
  String.mk (s.data.map jsToLowerChar)

/-- Model of JavaScript `String.prototype.trim`: drop leading and
trailing whitespace. -/
def jsTrim (s : String) : String :=
  String.mk (((s.data.dropWhile Char.isWhitespace).reverse.dropWhile
    Char.isWhitespace).reverse)

/-- Lexicographic comparison of character lists by code point, the
order JavaScript's default array `sort()` applies to string keys. -/
def charListLe : List Char → List Char → Bool
  | [], _ => true
  | _ :: _, [] => false
  | a :: as, b :: bs =>
    if a.toNat < b.toNat then true
    else if b.toNat < a.toNat then false
    else charListLe as bs

/-- String order used when sorting cache-key parameters. -/
def strLeR (a b : String) : Prop := charListLe a.data b.data = true

instance : DecidableRel strLeR := fun a b =>
  inferInstanceAs (Decidable (charListLe a.data b.data = true))

/-- The taxonomy of errors thrown by the library (src/types.ts):
ValidationError, RateLimitError (here carrying the remaining wait in
milliseconds rather than its rendered message string), NotFoundError,
TimeoutError, and a plain wrapping Error. -/
inductive LyrlibErr where
  | validation (msg : String)
  | rateLimited (waitMs : Int)
  | notFound (msg : String)
  | timeout
  | wrapped (msg : String)
  deriving DecidableEq, Repr

/-- Mutable state of the rate limiter (src/types.ts RateLimitState). -/
structure RateLimitState where
  requests : Int
  windowStart : Int
  isLimited : Bool
  deriving DecidableEq, Repr

/-- A RateLimiter instance: its constructor parameters plus state
(src/rateLimiter.ts). -/
structure RateLimiter where
  maxRequests : Int
  windowMs : Int
  state : RateLimitState
  deriving DecidableEq, Repr

/-- Constructing a RateLimiter at time `now` (the field initializer
uses `Date.now()`). -/
def RateLimiter.init (maxRequests windowMs now : Int) : RateLimiter :=
  { maxRequests := maxRequests, windowMs := windowMs,
    state := { requests := 0, windowStart := now, isLimited := false } }

/-- RateLimiter.checkLimit (src/rateLimiter.ts lines 25-49): reset the
window if it has passed, then either fail with a RateLimitError
(without incrementing) or increment the request count. Returns the
call's outcome together with the updated limiter. -/
def RateLimiter.checkLimit (rl : RateLimiter) (now : Int) :
    Except LyrlibErr Unit × RateLimiter :=
  let s0 := rl.state
  let s1 := if now - s0.windowStart ≥ rl.windowMs then
      { requests := 0, windowStart := now, isLimited := false }
    else s0
  if s1.requests ≥ rl.maxRequests then
    (Except.error (LyrlibErr.rateLimited ((s1.windowStart + rl.windowMs) - now)),
      { rl with state := { s1 with isLimited := true } })
  else
    (Except.ok (), { rl with state := { s1 with requests := s1.requests + 1 } })

/-- Snapshot returned by RateLimiter.getStatus. -/
structure RateLimitStatus where
  requests : Int
  maxRequests : Int
  resetTime : Int
  isLimited : Bool
  deriving DecidableEq, Repr

/-- RateLimiter.getStatus: read-only snapshot. -/
def RateLimiter.getStatus (rl : RateLimiter) : RateLimitStatus :=
  { requests := rl.state.requests, maxRequests := rl.maxRequests,
    resetTime := rl.state.windowStart + rl.windowMs,
    isLimited := rl.state.isLimited }

/-- RateLimiter.reset: reinitialize the state at time `now`. -/
def RateLimiter.reset (rl : RateLimiter) (now : Int) : RateLimiter :=
  { rl with
    state := { requests := 0, windowStart := now, isLimited := false } }

/-- One public rate-limiter operation, tagged with the clock value at
which it runs. -/
inductive RLOp where
  | check (now : Int)
  | status
  | reset (now : Int)
  deriving DecidableEq, Repr

/-- Run a sequence of rate-limiter operations. `checkLimit` updates the
state whether it succeeds or fails; `getStatus` reads without
mutating. -/
def RateLimiter.runOps (rl : RateLimiter) : List RLOp → RateLimiter
  | [] => rl
  | RLOp.check now :: ops => ((rl.checkLimit now).2).runOps ops
  | RLOp.status :: ops => rl.runOps ops
  | RLOp.reset now :: ops => (rl.reset now).runOps ops

/-- A cache entry (src/types.ts CacheEntry): data plus the timestamp at
which it was stored and its TTL in milliseconds. -/
structure CacheEntry (T : Type) where
  data : T
  timestamp : Nat
  ttl : Nat
  deriving DecidableEq, Repr

/-- The in-memory cache (src/cache.ts): a JavaScript Map modelled as an
insertion-ordered association list, plus the default TTL. -/
structure Cache (T : Type) where
  entries : List (String × CacheEntry T)
  defaultTTL : Nat
  deriving Repr

/-- JavaScript `Map.prototype.set`: replace in place if the key exists,
otherwise append. -/
def mapSet {T : Type} :
    List (String × CacheEntry T) → String → CacheEntry T →
    List (String × CacheEntry T)
  | [], k, e => [(k, e)]
  | (k', e') :: rest, k, e =>
    if k' = k then (k, e) :: rest else (k', e') :: mapSet rest k e

/-- JavaScript `Map.prototype.delete`: remove the entry with the given
key, if any. -/
def mapDelete {T : Type} :
    List (String × CacheEntry T) → String → List (String × CacheEntry T)
  | [], _ => []
  | (k', e') :: rest, k =>
    if k' = k then rest else (k', e') :: mapDelete rest k

/-- Cache.get (src/cache.ts lines 21-35): absent if never set; if the
entry has outlived its TTL it is deleted as a side effect and absent is
returned; otherwise the data is returned. The updated cache is returned
alongside the result. -/
def Cache.get {T : Type} (c : Cache T) (now : Nat) (key : String) :
    Option T × Cache T :=
  match c.entries.find? (fun kv => kv.1 == key) with
  | none => (none, c)
  | some kv =>
    if now - kv.2.timestamp > kv.2.ttl then
      (none, { c with entries := mapDelete c.entries key })
    else
      (some kv.2.data, c)

/-- Cache.set (src/cache.ts lines 40-48): unconditionally store the
value with timestamp `now` and the given TTL (default TTL when none is
supplied). -/
def Cache.set {T : Type} (c : Cache T) (now : Nat) (key : String)
    (value : T) (ttl : Option Nat) : Cache T :=
  let entry : CacheEntry T :=
    { data := value, timestamp := now, ttl := ttl.getD c.defaultTTL }
  { c with entries := mapSet c.entries key entry }

/-- Cache.size: number of stored entries, expired-but-unevicted ones
included. -/
def Cache.size {T : Type} (c : Cache T) : Nat := c.entries.length

/-- Cache.delete: remove an entry, reporting whether it existed. -/
def Cache.deleteKey {T : Type} (c : Cache T) (key : String) :
    Bool × Cache T :=
  (c.entries.any (fun kv => kv.1 == key),
    { c with entries := mapDelete c.entries key })

/-- Cache.clear: drop all entries. -/
def Cache.clear {T : Type} (c : Cache T) : Cache T :=
  { c with entries := [] }

/-- Cache.clean: evict every expired entry, returning how many were
evicted. -/
def Cache.clean {T : Type} (c : Cache T) (now : Nat) : Nat × Cache T :=
  let expired := fun kv : String × CacheEntry T =>
    now - kv.2.timestamp > kv.2.ttl
  ((c.entries.filter (fun kv => expired kv)).length,
    { c with entries := c.entries.filter (fun kv => !expired kv) })

/-- JavaScript property read `query[key]` for a key taken from
`Object.keys(query)`; the default branch is unreachable for such
keys. -/
def qlookup (query : List (String × String)) (k : String) : String :=
  match query.find? (fun kv => kv.1 == k) with
  | some kv => kv.2
  | none => "undefined"

/-- Cache.generateKey (src/cache.ts lines 91-95): sort the parameter
object's keys, render each as `key:value`, join with `|`, and put the
calling context in front, separated by `:`. The parameter object is
modelled as an insertion-ordered list of key/value pairs whose values
are already stringified. -/
def Cache.generateKey (pfx : String) (query : List (String × String)) :
    String :=
  let sortedKeys := List.insertionSort strLeR (query.map Prod.fst)
  let keyParts := sortedKeys.map (fun k => k ++ ":" ++ qlookup query k)
  pfx ++ ":" ++ String.intercalate "|" keyParts

/-- Track metadata record (src/types.ts TrackMetadata). -/
structure TrackMetadata where
  id : Int
  name : String
  trackName : String
  artistName : String
  albumName : String
  duration : Int
  instrumental : Bool
  plainLyrics : Option String
  syncedLyrics : Option String
  deriving DecidableEq, Repr

/-- An unsynced lyrics line (src/types.ts UnsyncedLyricsLine). -/
structure UnsyncedLyricsLine where
  text : String
  deriving DecidableEq, Repr

/-- A synced lyrics line with its start offset in milliseconds
(src/types.ts SyncedLyricsLine). -/
structure SyncedLyricsLine where
  text : String
  startTime : Nat
  deriving DecidableEq, Repr

/-- The TypeScript union `UnsyncedLyricsLine[] | SyncedLyricsLine[]`:
a homogeneous sequence of one variant, never mixed. -/
inductive LyricsLines where
  | unsynced (lines : List UnsyncedLyricsLine)
  | synced (lines : List SyncedLyricsLine)
  deriving DecidableEq, Repr

/-- The output format selector (src/types.ts LyricsFormat). -/
inductive LyricsFormat where
  | plain
  | lrc
  | json
  deriving DecidableEq, Repr

/-- Formatted lyrics result (src/types.ts FormattedLyrics). -/
structure FormattedLyrics where
  content : String
  format : LyricsFormat
  metadata : Option TrackMetadata
  deriving DecidableEq, Repr

/-- isSyncedLyrics (src/utils.ts lines 134-136): `lyrics.length > 0 &&
'startTime' in lyrics[0]`. On the unsynced variant the first element
never has a startTime key; on the synced variant it always does. -/
def isSyncedLyrics : LyricsLines → Bool
  | LyricsLines.unsynced lines => decide (lines.length > 0) && false
  | LyricsLines.synced lines => decide (lines.length > 0) && true

/-- The text fields of the lines, either variant. -/
def lineTexts : LyricsLines → List String
  | LyricsLines.unsynced lines => lines.map (fun line => line.text)
  | LyricsLines.synced lines => lines.map (fun line => line.text)

/-- The TypeScript cast `lyrics as SyncedLyricsLine[]` performed after
the isSyncedLyrics guard. -/
def LyricsLines.syncedLines : LyricsLines → List SyncedLyricsLine
  | LyricsLines.synced lines => lines
  | LyricsLines.unsynced _ => []

/-- JavaScript `padStart(2, '0')`: left-pad to length two, leaving
longer strings untouched. -/
def padStart2 (s : String) : String :=
  if s.length < 2 then String.mk (List.replicate (2 - s.length) '0') ++ s
  else s

/-- The `[MM:SS.CC]` timestamp computed by formatToLRC for a start
offset of `ms` milliseconds. -/
def lrcTimestamp (ms : Nat) : String :=
  let minutes := ms / 60000
  let seconds := (ms % 60000) / 1000
  let centiseconds := (ms % 1000) / 10
  "[" ++ padStart2 (toString minutes) ++ ":" ++ padStart2 (toString seconds)
    ++ "." ++ padStart2 (toString centiseconds) ++ "]"

/-- formatToLRC (src/utils.ts lines 141-151): timestamp immediately
followed by the text, lines joined with newlines. -/
def formatToLRC (lyrics : List SyncedLyricsLine) : String :=
  String.intercalate "\n"
    (lyrics.map (fun line => lrcTimestamp line.startTime ++ line.text))

/-- JSON string escaping for the characters that can occur here; the
rarely-hit control-character escapes of JSON.stringify are modelled for
the common cases only (no claim inspects the json branch). -/
def jsonEscapeChar (c : Char) : String :=
  if c = '"' then "\\\""
  else if c = '\\' then "\\\\"
  else if c = '\n' then "\\n"
  else if c = '\r' then "\\r"
  else if c = '\t' then "\\t"
  else String.mk [c]

/-- Escape a whole string for JSON output. -/
def jsonEscape (s : String) : String :=
  String.join (s.data.map jsonEscapeChar)

/-- One array element of `JSON.stringify(lyrics, null, 2)` for an
unsynced line. -/
def jsonUnsyncedLine (line : UnsyncedLyricsLine) : String :=
  "  \x7b\n    \"text\": \"" ++ jsonEscape line.text ++ "\"\n  \x7d"

/-- One array element of `JSON.stringify(lyrics, null, 2)` for a synced
line (fields in declaration order: text, startTime). -/
def jsonSyncedLine (line : SyncedLyricsLine) : String :=
  "  \x7b\n    \"text\": \"" ++ jsonEscape line.text
    ++ "\",\n    \"startTime\": " ++ toString line.startTime ++ "\n  \x7d"

/-- `JSON.stringify(lyrics, null, 2)`: the two-space pretty-printed
array serialization used by the json branch of formatLyrics. -/
def jsonStringifyLines : LyricsLines → String
  | LyricsLines.unsynced [] => "[]"
  | LyricsLines.synced [] => "[]"
  | LyricsLines.unsynced lines =>
    "[\n" ++ String.intercalate ",\n" (lines.map jsonUnsyncedLine) ++ "\n]"
  | LyricsLines.synced lines =>
    "[\n" ++ String.intercalate ",\n" (lines.map jsonSyncedLine) ++ "\n]"

/-- formatLyrics (src/utils.ts lines 98-129): switch on the requested
format; the lrc branch demands synced lyrics and otherwise fails with a
ValidationError. -/
def formatLyrics (lyrics : LyricsLines) (format : LyricsFormat)
    (metadata : Option TrackMetadata) : Except LyrlibErr FormattedLyrics :=
  match format with
  | LyricsFormat.plain =>
    let result : FormattedLyrics :=
      { content := String.intercalate "\n" (lineTexts lyrics),
        format := LyricsFormat.plain, metadata := metadata }
    Except.ok result
  | LyricsFormat.lrc =>
    if isSyncedLyrics lyrics then
      let result : FormattedLyrics :=
        { content := formatToLRC lyrics.syncedLines,
          format := LyricsFormat.lrc, metadata := metadata }
      Except.ok result
    else
      Except.error (LyrlibErr.validation "LRC format requires synced lyrics")
  | LyricsFormat.json =>
    let result : FormattedLyrics :=
      { content := jsonStringifyLines lyrics,
        format := LyricsFormat.json, metadata := metadata }
    Except.ok result

/-- The Levenshtein dynamic-programming table of calculateSimilarity
(src/utils.ts lines 163-182): `levD s1 s2 j i` is `matrix[j][i]`, the
edit distance between the first `i` characters of `s1` and the first
`j` characters of `s2`. Row 0 and column 0 are the index itself; the
inner cell takes the minimum of deletion, insertion and substitution,
the latter costing 1 exactly when the characters differ. -/
def levD (s1 s2 : List Char) : Nat → Nat → Nat
  | 0, i => i
  | j+1, 0 => j+1
  | j+1, i+1 =>
    min (levD s1 s2 (j+1) i + 1)
      (min (levD s1 s2 j (i+1) + 1)
        (levD s1 s2 j i + (if s1.getD i ' ' = s2.getD j ' ' then 0 else 1)))
  termination_by j i => (j, i)

/-- calculateSimilarity (src/utils.ts lines 156-186): normalize with
toLowerCase and trim, return 1 on equality, otherwise one minus the
normalized Levenshtein distance; the division is modelled exactly over
the rationals. -/
def calculateSimilarity (str1 str2 : String) : ℚ :=
  let s1 := jsTrim (jsToLower str1)
  let s2 := jsTrim (jsToLower str2)
  if s1 = s2 then 1
  else
    let maxLength := max s1.length s2.length
    if maxLength = 0 then 1
    else ((maxLength : ℚ) - (levD s1.data s2.data s2.length s1.length : ℚ))
      / (maxLength : ℚ)

/-- A JavaScript value as seen by validateQuery's runtime checks:
either a string, or a non-string value of which only truthiness
matters. -/
inductive JSValue where
  | str (s : String)
  | nonString (truthy : Bool)
  deriving DecidableEq, Repr

/-- JavaScript truthiness: a string is truthy iff non-empty; other
values carry their truthiness. -/
def JSValue.truthy : JSValue → Bool
  | JSValue.str s => !(s == "")
  | JSValue.nonString b => b

/-- Truthiness of an optional field (`undefined` is falsy). -/
def optTruthy : Option JSValue → Bool
  | none => false
  | some v => v.truthy

/-- The `typeof x === 'string'` check on an optional field. -/
def optIsString : Option JSValue → Bool
  | some (JSValue.str _) => true
  | _ => false

/-- The string content of an optional field; only read on code paths
where the field is known to be a string. -/
def optStringVal : Option JSValue → String
  | some (JSValue.str s) => s
  | _ => ""

/-- The raw `Partial<LyricsQuery>` input of validateQuery: each field
may be absent or hold an arbitrary JavaScript value. -/
structure RawQuery where
  track_name : Option JSValue
  artist_name : Option JSValue
  album_name : Option JSValue
  deriving DecidableEq, Repr

/-- A validated LyricsQuery (src/types.ts): album_name optional. -/
structure LyricsQuery where
  track_name : String
  artist_name : String
  album_name : Option String
  deriving DecidableEq, Repr

/-- validateQuery (src/utils.ts lines 222-249), check for check:
falsy-or-missing test, per-field string/trim tests, the truthy-guarded
album_name test, then the trimmed result whose album_name is included
only when the raw album_name was truthy. -/
def validateQuery (query : RawQuery) : Except LyrlibErr LyricsQuery :=
  if !optTruthy query.track_name || !optTruthy query.artist_name then
    Except.error (LyrlibErr.validation "track_name and artist_name are required")
  else if !optIsString query.track_name
      || (jsTrim (optStringVal query.track_name)).length == 0 then
    Except.error (LyrlibErr.validation "track_name must be a non-empty string")
  else if !optIsString query.artist_name
      || (jsTrim (optStringVal query.artist_name)).length == 0 then
    Except.error (LyrlibErr.validation "artist_name must be a non-empty string")
  else if optTruthy query.album_name
      && (!optIsString query.album_name
        || (jsTrim (optStringVal query.album_name)).length == 0) then
    Except.error
      (LyrlibErr.validation "album_name must be a non-empty string when provided")
  else
    let result : LyricsQuery :=
      { track_name := jsTrim (optStringVal query.track_name),
        artist_name := jsTrim (optStringVal query.artist_name),
        album_name :=
          if optTruthy query.album_name then
            some (jsTrim (optStringVal query.album_name))
          else none }
    Except.ok result

/-- A value stored in the client's shared cache: either a
FormattedLyrics, or one of the other shapes (search results, metadata)
which the by-id path never reads. -/
inductive CachedValue where
  | formatted (value : FormattedLyrics)
  | otherValue
  deriving Repr

/-- The unchecked TypeScript cast `cached as FormattedLyrics`; the
non-FormattedLyrics branch is unreachable in the states the theorems
quantify over. -/
def CachedValue.castFormatted : CachedValue → FormattedLyrics
  | CachedValue.formatted value => value
  | CachedValue.otherValue =>
    { content := "", format := LyricsFormat.json, metadata := none }

/-- Client options after the constructor merged in the defaults
(src/client.ts lines 399-416). -/
structure ClientOptionsR where
  enableCache : Bool
  cacheTTL : Nat
  enableRateLimit : Bool
  maxRequestsPerMinute : Int
  requestTimeout : Nat
  deriving Repr

/-- LyricsOptions (src/types.ts): all fields optional. -/
structure LyricsOptions where
  synced : Option Bool
  includeMetadata : Option Bool
  format : Option LyricsFormat
  deriving Repr

/-- Render a boolean the way a template literal does. -/
def jsBoolStr (b : Bool) : String := if b then "true" else "false"

/-- Render a LyricsFormat the way a template literal does. -/
def LyricsFormat.str : LyricsFormat → String
  | LyricsFormat.plain => "plain"
  | LyricsFormat.lrc => "lrc"
  | LyricsFormat.json => "json"

/-- Client.getLyricsById (src/client.ts lines 482-516): merge option
defaults, build the cache key under the `lyrics_by_id` context, return
a cache hit if one exists, otherwise run the rate check and throw: a
RateLimitError is wrapped by the catch block into a plain Error, and
the stub itself throws NotFoundError. The limiter's state change is
irrelevant to the result and not returned. -/
def Client.getLyricsById (options : ClientOptionsR)
    (cache : Cache CachedValue) (rl : RateLimiter) (now : Nat)
    (trackId : Int) (lyricsOptions : LyricsOptions) :
    Except LyrlibErr FormattedLyrics :=
  let syncedOpt := lyricsOptions.synced.getD false
  let includeMetadataOpt := lyricsOptions.includeMetadata.getD true
  let formatOpt := lyricsOptions.format.getD LyricsFormat.json
  let cacheKey := Cache.generateKey "lyrics_by_id"
    [("trackId", toString trackId), ("synced", jsBoolStr syncedOpt),
      ("includeMetadata", jsBoolStr includeMetadataOpt),
      ("format", formatOpt.str)]
  let cached := if options.enableCache then (cache.get now cacheKey).1 else none
  match cached with
  | some value => Except.ok value.castFormatted
  | none =>
    match (if options.enableRateLimit then (rl.checkLimit (now : Int)).1
        else Except.ok ()) with
    | Except.error _e =>
      Except.error (LyrlibErr.wrapped "Failed to get lyrics by ID: Rate limit exceeded")
    | Except.ok _ =>
      Except.error (LyrlibErr.notFound
        "getLyricsById is not yet implemented - use searchSong and getLyricsByMetadata instead")

/-- An input sequence containing at least one line without a start
time: since the two variants are never mixed, this is exactly a
non-empty unsynced sequence. -/
def hasLineWithoutStartTime : LyricsLines → Prop
  | LyricsLines.unsynced lines => lines ≠ []
  | LyricsLines.synced _ => False

/-- C4: formatting with format lrc fails with a ValidationError on
every input sequence that contains at least one line without a start
time (the unsynced variant). -/
theorem lrc_format_rejects_unsynced (lyrics : LyricsLines)
    (metadata : Option TrackMetadata) (h : hasLineWithoutStartTime lyrics) :
    formatLyrics lyrics LyricsFormat.lrc metadata =
      Except.error (LyrlibErr.validation "LRC format requires synced lyrics") := by
  cases lyrics with
  | unsynced lines => simp [formatLyrics, isSyncedLyrics]
  | synced lines => exact absurd h (by simp [hasLineWithoutStartTime])

/-- Witness for C4 at the concrete one-line unsynced input. -/
theorem lrc_format_rejects_unsynced_witness :
    hasLineWithoutStartTime (LyricsLines.unsynced [{ text := "Line 1" }]) ∧
    formatLyrics (LyricsLines.unsynced [{ text := "Line 1" }])
        LyricsFormat.lrc none =
      Except.error (LyrlibErr.validation "LRC format requires synced lyrics") :=
  ⟨by simp [hasLineWithoutStartTime],
    lrc_format_rejects_unsynced _ none (by simp [hasLineWithoutStartTime])⟩

/-- The rendering of one synced line as the specification words it:
timestamp `[MM:SS.CC]` from minutes = floor(ms/60000), seconds =
floor((ms mod 60000)/1000), centiseconds = floor((ms mod 1000)/10),
each zero-padded to two digits, immediately followed by the text. -/
def lrcLineSpec (line : SyncedLyricsLine) : String :=
  let minutes := line.startTime / 60000
  let seconds := (line.startTime % 60000) / 1000
  let centiseconds := (line.startTime % 1000) / 10
  "[" ++ padStart2 (toString minutes) ++ ":" ++ padStart2 (toString seconds)
    ++ "." ++ padStart2 (toString centiseconds) ++ "]" ++ line.text

/-- C5: on every non-empty synced sequence, the lrc format succeeds and
renders exactly the newline-joined spec-side lines; in particular the
two-line example renders to `[00:00.00]Line 1` and `[00:01.00]Line 2`. -/
theorem lrc_format_renders_spec_lines (lines : List SyncedLyricsLine)
    (metadata : Option TrackMetadata) (h : lines ≠ []) :
    formatLyrics (LyricsLines.synced lines) LyricsFormat.lrc metadata =
      Except.ok (FormattedLyrics.mk
        (String.intercalate "\n" (lines.map lrcLineSpec))
        LyricsFormat.lrc metadata) ∧
    formatLyrics
        (LyricsLines.synced
          [{ text := "Line 1", startTime := 0 },
            { text := "Line 2", startTime := 1000 }])
        LyricsFormat.lrc none =
      Except.ok (FormattedLyrics.mk "[00:00.00]Line 1\n[00:01.00]Line 2"
        LyricsFormat.lrc none) := by
  constructor
  · have hf : (fun line : SyncedLyricsLine =>
        lrcTimestamp line.startTime ++ line.text) = lrcLineSpec :=
      funext fun line => rfl
    have hlen : 0 < lines.length := List.length_pos.mpr h
    simp [formatLyrics, isSyncedLyrics, LyricsLines.syncedLines, formatToLRC,
      hf, hlen]
  · rfl

/-- Witness for C5 at the concrete two-line synced input. -/
theorem lrc_format_renders_spec_lines_witness :
    ([{ text := "Line 1", startTime := 0 },
        { text := "Line 2", startTime := 1000 }] : List SyncedLyricsLine) ≠ [] ∧
    formatLyrics
        (LyricsLines.synced
          [{ text := "Line 1", startTime := 0 },
            { text := "Line 2", startTime := 1000 }])
        LyricsFormat.lrc none =
      Except.ok (FormattedLyrics.mk "[00:00.00]Line 1\n[00:01.00]Line 2"
        LyricsFormat.lrc none) :=
  ⟨by simp,
    (lrc_format_renders_spec_lines
      [{ text := "Line 1", startTime := 0 },
        { text := "Line 2", startTime := 1000 }] none (by simp)).2⟩

/-- C10: the empty line sequence (either variant) is treated as
unsynced — the synced-lyrics detection requires a non-empty sequence —
so lrc formatting fails with a ValidationError, while plain formatting
succeeds with the empty string as content. -/
theorem format_empty_sequence (metadata : Option TrackMetadata) :
    formatLyrics (LyricsLines.unsynced []) LyricsFormat.lrc metadata =
      Except.error (LyrlibErr.validation "LRC format requires synced lyrics") ∧
    formatLyrics (LyricsLines.synced []) LyricsFormat.lrc metadata =
      Except.error (LyrlibErr.validation "LRC format requires synced lyrics") ∧
    formatLyrics (LyricsLines.unsynced []) LyricsFormat.plain metadata =
      Except.ok (FormattedLyrics.mk "" LyricsFormat.plain metadata) ∧
    formatLyrics (LyricsLines.synced []) LyricsFormat.plain metadata =
      Except.ok (FormattedLyrics.mk "" LyricsFormat.plain metadata) :=
  ⟨rfl, rfl, rfl, rfl⟩

/-- After a Map-style set, the first entry found under the key is the
one just stored. -/
theorem find?_mapSet {T : Type} (l : List (String × CacheEntry T))
    (k : String) (e : CacheEntry T) :
    (mapSet l k e).find? (fun kv => kv.1 == k) = some (k, e) := by
  induction l with
  | nil => simp [mapSet]
  | cons head rest ih =>
    obtain ⟨k', e'⟩ := head
    by_cases hk : k' = k
    · simp [mapSet, hk]
    · simp [mapSet, hk, List.find?, ih]

/-- Deleting a key that is present removes exactly one entry. -/
theorem length_mapDelete {T : Type} (l : List (String × CacheEntry T))
    (k : String) (kv : String × CacheEntry T)
    (h : l.find? (fun x => x.1 == k) = some kv) :
    (mapDelete l k).length + 1 = l.length := by
  induction l with
  | nil => simp [List.find?] at h
  | cons head rest ih =>
    obtain ⟨k', e'⟩ := head
    by_cases hk : k' = k
    · simp [mapDelete, hk]
    · rw [List.find?] at h
      have hbeq : (k' == k) = false := by simp [hk]
      rw [hbeq] at h
      simp [mapDelete, hk, ih h]

/-- C2: setting a key and reading it back immediately returns the
value; once the elapsed time strictly exceeds the entry's ttl, the
lookup returns absent and, as its side effect, evicts the entry, so
the size drops by one. -/
theorem cache_roundtrip_and_lazy_expiry {T : Type} (c : Cache T)
    (k : String) (v : T) (ttl t0 t1 : Nat) :
    ((c.set t0 k v (some ttl)).get t0 k).1 = some v ∧
    (t1 - t0 > ttl →
      ((c.set t0 k v (some ttl)).get t1 k).1 = none ∧
      ((c.set t0 k v (some ttl)).get t1 k).2.size + 1 =
        (c.set t0 k v (some ttl)).size) := by
  have hset : c.set t0 k v (some ttl) =
      ⟨mapSet c.entries k { data := v, timestamp := t0, ttl := ttl },
        c.defaultTTL⟩ := rfl
  have hfind := find?_mapSet c.entries k
    ({ data := v, timestamp := t0, ttl := ttl } : CacheEntry T)
  rw [hset]
  constructor
  · simp [Cache.get, hfind]
  · intro hexp
    have hguard : t1 - t0 > ttl := hexp
    constructor
    · simp [Cache.get, hfind, hguard]
    · simp only [Cache.get, hfind, Cache.size, hguard, if_pos]
      exact length_mapDelete _ k _ hfind

/-- Witness for C2 at a concrete cache, key, value and clock values. -/
theorem cache_roundtrip_and_lazy_expiry_witness :
    (((⟨[], 300000⟩ : Cache Nat).set 100 "k" 7 (some 50)).get 100 "k").1 =
      some 7 ∧
    ((((⟨[], 300000⟩ : Cache Nat).set 100 "k" 7 (some 50)).get 151 "k").1 =
      none ∧
    ((((⟨[], 300000⟩ : Cache Nat).set 100 "k" 7 (some 50)).get 151 "k").2.size
        + 1 =
      ((⟨[], 300000⟩ : Cache Nat).set 100 "k" 7 (some 50)).size)) :=
  ⟨(cache_roundtrip_and_lazy_expiry (⟨[], 300000⟩ : Cache Nat)
      "k" 7 50 100 151).1,
    (cache_roundtrip_and_lazy_expiry (⟨[], 300000⟩ : Cache Nat)
      "k" 7 50 100 151).2 (by decide)⟩

/-- C1 counterexample: with maxRequests = 0 the second half of the
claim fails. The window has elapsed (now - windowStart = 5 >= windowMs
= 1), the count has reached maxRequests (0), yet the subsequent
checkLimit call does not succeed: after resetting the window the count
0 still reaches the ceiling 0, so the call fails with a
RateLimitError instead of incrementing. -/
theorem checkLimit_reset_claim_cex :
    (5 : Int) - (0 : Int) ≥ (1 : Int) ∧
    (RateLimiter.checkLimit
        ⟨0, 1, { requests := 0, windowStart := 0, isLimited := false }⟩
        5).1 ≠ Except.ok () := by
  constructor
  · decide
  · intro h
    simp [RateLimiter.checkLimit] at h

/-- C1 (amended with 1 ≤ maxRequests for the success half): within a
live window, once the count has reached maxRequests the next
checkLimit call fails with a RateLimitError carrying the remaining
wait (windowStart + windowMs) - now and leaves the count unchanged;
and once the window has elapsed, provided maxRequests ≥ 1, the next
call resets the window (count 0, windowStart now, limited false) and
succeeds by incrementing the count to 1. -/
theorem checkLimit_limits_then_resets (N W : Int) (s : RateLimitState)
    (now : Int) :
    (now - s.windowStart < W → s.requests = N →
      (RateLimiter.checkLimit ⟨N, W, s⟩ now).1 =
        Except.error (LyrlibErr.rateLimited ((s.windowStart + W) - now)) ∧
      ((RateLimiter.checkLimit ⟨N, W, s⟩ now).2).state.requests =
        s.requests) ∧
    (1 ≤ N → now - s.windowStart ≥ W →
      (RateLimiter.checkLimit ⟨N, W, s⟩ now).1 = Except.ok () ∧
      ((RateLimiter.checkLimit ⟨N, W, s⟩ now).2).state =
        { requests := 1, windowStart := now, isLimited := false }) := by
  constructor
  · intro hwin hreq
    have hnoreset : ¬ (now - s.windowStart ≥ W) := by omega
    have hlim : s.requests ≥ N := le_of_eq hreq.symm
    simp [RateLimiter.checkLimit, hnoreset, hlim]
  · intro hN hwin
    have hnotlim : ¬ ((0 : Int) ≥ N) := by omega
    simp [RateLimiter.checkLimit, hwin, hnotlim]

/-- Witness for C1 (amended): a limiter with ceiling 1 and window 10,
saturated at count 1 since time 0. At time 5 the window is live and
the call fails without touching the count; at time 15 the window has
elapsed and the call succeeds with the reset-and-incremented state. -/
theorem checkLimit_limits_then_resets_witness :
    ((5 : Int) - (0 : Int) < 10 ∧ (1 : Int) = 1 ∧
      (RateLimiter.checkLimit
          ⟨1, 10, { requests := 1, windowStart := 0, isLimited := false }⟩
          5).1 =
        Except.error (LyrlibErr.rateLimited ((0 : Int) + 10 - 5)) ∧
      ((RateLimiter.checkLimit
          ⟨1, 10, { requests := 1, windowStart := 0, isLimited := false }⟩
          5).2).state.requests = 1) ∧
    ((1 : Int) ≤ 1 ∧ (15 : Int) - (0 : Int) ≥ 10 ∧
      (RateLimiter.checkLimit
          ⟨1, 10, { requests := 1, windowStart := 0, isLimited := false }⟩
          15).1 = Except.ok () ∧
      ((RateLimiter.checkLimit
          ⟨1, 10, { requests := 1, windowStart := 0, isLimited := false }⟩
          15).2).state =
        { requests := 1, windowStart := 15, isLimited := false }) := by
  have h1 := (checkLimit_limits_then_resets 1 10
    { requests := 1, windowStart := 0, isLimited := false } 5).1
    (by decide) (by decide)
  have h2 := (checkLimit_limits_then_resets 1 10
    { requests := 1, windowStart := 0, isLimited := false } 15).2
    (by decide) (by decide)
  exact ⟨⟨by decide, rfl, h1.1, h1.2⟩, ⟨by decide, by decide, h2.1, h2.2⟩⟩

/-- checkLimit preserves the limiter's configuration and keeps the
count within [0, maxRequests] whenever the ceiling is nonnegative. -/
theorem checkLimit_preserves_bounds (rl : RateLimiter) (now : Int)
    (hN : 0 ≤ rl.maxRequests) (h0 : 0 ≤ rl.state.requests)
    (h1 : rl.state.requests ≤ rl.maxRequests) :
    ((rl.checkLimit now).2).maxRequests = rl.maxRequests ∧
    0 ≤ ((rl.checkLimit now).2).state.requests ∧
    ((rl.checkLimit now).2).state.requests ≤ rl.maxRequests := by
  unfold RateLimiter.checkLimit
  by_cases hreset : now - rl.state.windowStart ≥ rl.windowMs
  · by_cases hlim : (0 : Int) ≥ rl.maxRequests
    · simp [hreset, hlim]
      omega
    · simp [hreset, hlim]
      omega
  · by_cases hlim : rl.state.requests ≥ rl.maxRequests
    · simp [hreset, hlim]
      omega
    · simp [hreset, hlim]
      omega

/-- Over any operation sequence, a limiter whose ceiling is nonnegative
and whose count starts within bounds keeps its configuration and its
count within bounds. -/
theorem runOps_preserves_bounds (N : Int) (ops : List RLOp) :
    ∀ rl : RateLimiter, rl.maxRequests = N → 0 ≤ N →
      0 ≤ rl.state.requests → rl.state.requests ≤ N →
      (rl.runOps ops).maxRequests = N ∧
      0 ≤ (rl.runOps ops).state.requests ∧
      (rl.runOps ops).state.requests ≤ N := by
  induction ops with
  | nil => intro rl hmax hN h0 h1; exact ⟨hmax, h0, h1⟩
  | cons op rest ih =>
    intro rl hmax hN h0 h1
    cases op with
    | check now =>
      have hb := checkLimit_preserves_bounds rl now (hmax ▸ hN) h0
        (hmax ▸ h1)
      rw [RateLimiter.runOps]
      exact ih _ (hb.1.trans hmax) hN hb.2.1 (hmax ▸ hb.2.2)
    | status =>
      rw [RateLimiter.runOps]
      exact ih rl hmax hN h0 h1
    | reset now =>
      rw [RateLimiter.runOps]
      exact ih _ hmax hN (by simp [RateLimiter.reset]) (by simp [RateLimiter.reset, hN])

/-- C9: for a limiter constructed with a nonnegative ceiling N, the
count starts at 0 and stays at most N after every sequence of
checkLimit / getStatus / reset operations, at arbitrary clock values. -/
theorem rate_limiter_count_bounded (N W t0 : Int) (hN : 0 ≤ N)
    (ops : List RLOp) :
    (RateLimiter.init N W t0).state.requests = 0 ∧
    ((RateLimiter.init N W t0).runOps ops).state.requests ≤ N :=
  ⟨rfl,
    (runOps_preserves_bounds N ops (RateLimiter.init N W t0) rfl hN
      (by simp [RateLimiter.init]) hN).2.2⟩

/-- Witness for C9 at a concrete ceiling, window and operation list
that exercises failing checks, a reset and a window rollover. -/
theorem rate_limiter_count_bounded_witness :
    (0 : Int) ≤ 2 ∧
    (RateLimiter.init 2 10 0).state.requests = 0 ∧
    ((RateLimiter.init 2 10 0).runOps
        [RLOp.check 1, RLOp.check 2, RLOp.check 3, RLOp.status,
          RLOp.check 12, RLOp.reset 20, RLOp.check 21]).state.requests ≤ 2 :=
  ⟨by decide,
    (rate_limiter_count_bounded 2 10 0 (by decide)
      [RLOp.check 1, RLOp.check 2, RLOp.check 3, RLOp.status,
        RLOp.check 12, RLOp.reset 20, RLOp.check 21]).1,
    (rate_limiter_count_bounded 2 10 0 (by decide)
      [RLOp.check 1, RLOp.check 2, RLOp.check 3, RLOp.status,
        RLOp.check 12, RLOp.reset 20, RLOp.check 21]).2⟩

/-- A field that is missing, not a string, or a string trimming to
empty — the rejection condition the claim states for trackName and
artistName. -/
def missingNonStringOrBlank (field : Option JSValue) : Prop :=
  field = none ∨ (∃ b, field = some (JSValue.nonString b)) ∨
    (∃ s, field = some (JSValue.str s) ∧ jsTrim s = "")

/-- C3 counterexample: an albumName supplied as the empty string is
present and trims to empty, yet validateQuery does not fail — it
succeeds and silently omits the album (the truthiness guard skips the
empty-string check, and the result-construction guard drops the
field). -/
theorem validateQuery_empty_album_cex :
    jsTrim "" = "" ∧
    validateQuery
        { track_name := some (JSValue.str "a"),
          artist_name := some (JSValue.str "b"),
          album_name := some (JSValue.str "") } =
      Except.ok (LyricsQuery.mk "a" "b" none) := by
  constructor
  · rfl
  · rfl

/-- C3 (amended): validateQuery fails with a ValidationError whenever
trackName or artistName is missing, not a string, or trims to empty,
and whenever albumName is truthy (in particular a non-empty string)
but is not a string or trims to empty; an albumName supplied as the
empty string is treated as absent. On success every returned field is
the trimmed input, and albumName is omitted from the result exactly
when the raw albumName was absent or falsy. -/
theorem validateQuery_characterization (q : RawQuery) :
    (missingNonStringOrBlank q.track_name ∨
        missingNonStringOrBlank q.artist_name →
      ∃ msg, validateQuery q = Except.error (LyrlibErr.validation msg)) ∧
    (optTruthy q.album_name = true →
      optIsString q.album_name = false ∨
        jsTrim (optStringVal q.album_name) = "" →
      ∃ msg, validateQuery q = Except.error (LyrlibErr.validation msg)) ∧
    (∀ out, validateQuery q = Except.ok out →
      out.track_name = jsTrim (optStringVal q.track_name) ∧
      out.artist_name = jsTrim (optStringVal q.artist_name) ∧
      out.album_name =
        (if optTruthy q.album_name = true then
          some (jsTrim (optStringVal q.album_name))
        else none)) := by
  refine ⟨?_, ?_, ?_⟩
  · intro hbad
    by_cases hg1 : (!optTruthy q.track_name || !optTruthy q.artist_name) = true
    · exact ⟨"track_name and artist_name are required",
        by simp [validateQuery, hg1]⟩
    · rcases hbad with hb | hb
      · have hg2 : (!optIsString q.track_name
            || ((jsTrim (optStringVal q.track_name)).length == 0)) = true := by
          rcases hb with hb | ⟨b, hb⟩ | ⟨s, hb, hs⟩ <;>
            simp [hb, optIsString, optStringVal, *]
        exact ⟨"track_name must be a non-empty string",
          by simp [validateQuery, hg1, hg2]⟩
      · by_cases hg2 : (!optIsString q.track_name
            || ((jsTrim (optStringVal q.track_name)).length == 0)) = true
        · exact ⟨"track_name must be a non-empty string",
            by simp [validateQuery, hg1, hg2]⟩
        · have hg3 : (!optIsString q.artist_name
              || ((jsTrim (optStringVal q.artist_name)).length == 0)) =
              true := by
            rcases hb with hb | ⟨b, hb⟩ | ⟨s, hb, hs⟩ <;>
              simp [hb, optIsString, optStringVal, *]
          exact ⟨"artist_name must be a non-empty string",
            by simp [validateQuery, hg1, hg2, hg3]⟩
  · intro htruthy hbad
    have hg4 : (optTruthy q.album_name && (!optIsString q.album_name
        || ((jsTrim (optStringVal q.album_name)).length == 0))) = true := by
      rw [htruthy, Bool.true_and]
      rcases hbad with hb | hb
      · simp [hb]
      · simp [hb]
    by_cases hg1 : (!optTruthy q.track_name || !optTruthy q.artist_name) = true
    · exact ⟨"track_name and artist_name are required",
        by simp [validateQuery, hg1]⟩
    · by_cases hg2 : (!optIsString q.track_name
          || ((jsTrim (optStringVal q.track_name)).length == 0)) = true
      · exact ⟨"track_name must be a non-empty string",
          by simp [validateQuery, hg1, hg2]⟩
      · by_cases hg3 : (!optIsString q.artist_name
            || ((jsTrim (optStringVal q.artist_name)).length == 0)) = true
        · exact ⟨"artist_name must be a non-empty string",
            by simp [validateQuery, hg1, hg2, hg3]⟩
        · exact ⟨"album_name must be a non-empty string when provided",
            by simp [validateQuery, hg1, hg2, hg3, hg4]⟩
  · intro out hout
    simp only [validateQuery] at hout
    split_ifs at hout with h1 h2 h3 h4 h5
    all_goals injection hout with hout
    all_goals subst hout
    · simp [h5]
    · simp [h5]

/-- Witness for C3 (amended), exercising all three parts at concrete
inputs: a query missing its track name, a query with a
whitespace-only albumName, and a fully valid query with padded
fields. -/
theorem validateQuery_characterization_witness :
    (∃ msg, validateQuery
        { track_name := none, artist_name := some (JSValue.str "b"),
          album_name := none } =
      Except.error (LyrlibErr.validation msg)) ∧
    (∃ msg, validateQuery
        { track_name := some (JSValue.str "a"),
          artist_name := some (JSValue.str "b"),
          album_name := some (JSValue.str "  ") } =
      Except.error (LyrlibErr.validation msg)) ∧
    ("a" : String) =
      jsTrim (optStringVal (some (JSValue.str " a "))) :=
  ⟨(validateQuery_characterization
      { track_name := none, artist_name := some (JSValue.str "b"),
        album_name := none }).1 (Or.inl (Or.inl rfl)),
    (validateQuery_characterization
      { track_name := some (JSValue.str "a"),
        artist_name := some (JSValue.str "b"),
        album_name := some (JSValue.str "  ") }).2.1 (by decide)
      (Or.inr (by decide)),
    ((validateQuery_characterization
      { track_name := some (JSValue.str " a "),
        artist_name := some (JSValue.str "b"),
        album_name := none }).2.2
      { track_name := "a", artist_name := "b", album_name := none }
      rfl).1⟩

/-- The key order is total. -/
theorem charListLe_total : ∀ as bs : List Char,
    charListLe as bs = true ∨ charListLe bs as = true := by
  intro as
  induction as with
  | nil => intro bs; left; rfl
  | cons a as ih =>
    intro bs
    cases bs with
    | nil => right; rfl
    | cons b bs =>
      by_cases hab : a.toNat < b.toNat
      · left; simp [charListLe, hab]
      · by_cases hba : b.toNat < a.toNat
        · right; simp [charListLe, hba]
        · rcases ih bs with h | h
          · left; simp [charListLe, hab, hba, h]
          · right; simp [charListLe, hab, hba, h]

/-- Unfolding a cons-cons comparison that succeeded. -/
theorem charListLe_cons_elim {a b : Char} {as bs : List Char}
    (h : charListLe (a :: as) (b :: bs) = true) :
    a.toNat < b.toNat ∨
      (a.toNat = b.toNat ∧ charListLe as bs = true) := by
  simp only [charListLe] at h
  split_ifs at h with h1 h2
  · exact Or.inl h1
  · exact Or.inr ⟨by omega, h⟩

/-- A strictly smaller head decides the comparison. -/
theorem charListLe_cons_of_lt {a b : Char} {as bs : List Char}
    (h : a.toNat < b.toNat) : charListLe (a :: as) (b :: bs) = true := by
  simp [charListLe, h]

/-- Equal heads defer to the tails. -/
theorem charListLe_cons_of_eq {a b : Char} {as bs : List Char}
    (h : a.toNat = b.toNat) (hrec : charListLe as bs = true) :
    charListLe (a :: as) (b :: bs) = true := by
  have h1 : ¬ a.toNat < b.toNat := by omega
  have h2 : ¬ b.toNat < a.toNat := by omega
  simp [charListLe, h1, h2, hrec]

/-- The key order is transitive. -/
theorem charListLe_trans : ∀ as bs cs : List Char,
    charListLe as bs = true → charListLe bs cs = true →
    charListLe as cs = true := by
  intro as
  induction as with
  | nil => intro bs cs _ _; rfl
  | cons a as ih =>
    intro bs cs hab hbc
    cases bs with
    | nil => simp [charListLe] at hab
    | cons b bs =>
      cases cs with
      | nil => simp [charListLe] at hbc
      | cons c cs =>
        rcases charListLe_cons_elim hab with h1 | ⟨h1, hr1⟩
        · rcases charListLe_cons_elim hbc with h2 | ⟨h2, hr2⟩
          · exact charListLe_cons_of_lt (by omega)
          · exact charListLe_cons_of_lt (by omega)
        · rcases charListLe_cons_elim hbc with h2 | ⟨h2, hr2⟩
          · exact charListLe_cons_of_lt (by omega)
          · exact charListLe_cons_of_eq (by omega) (ih bs cs hr1 hr2)

/-- The key order is antisymmetric. -/
theorem charListLe_antisymm : ∀ as bs : List Char,
    charListLe as bs = true → charListLe bs as = true → as = bs := by
  intro as
  induction as with
  | nil =>
    intro bs _ hba
    cases bs with
    | nil => rfl
    | cons b bs => simp [charListLe] at hba
  | cons a as ih =>
    intro bs hab hba
    cases bs with
    | nil => simp [charListLe] at hab
    | cons b bs =>
      rcases charListLe_cons_elim hab with h1 | ⟨h1, hr1⟩ <;>
        rcases charListLe_cons_elim hba with h2 | ⟨h2, hr2⟩ <;>
        try omega
      have htn : a.toNat = b.toNat := by omega
      have hchar : a = b := Char.eq_of_val_eq (UInt32.ext htn)
      rw [hchar, ih bs hr1 hr2]

instance : IsTotal String strLeR :=
  ⟨fun a b => charListLe_total a.data b.data⟩

instance : IsTrans String strLeR :=
  ⟨fun a b c hab hbc => charListLe_trans a.data b.data c.data hab hbc⟩

instance : IsAntisymm String strLeR :=
  ⟨fun a b hab hba => String.ext (charListLe_antisymm a.data b.data hab hba)⟩

/-- With no duplicate keys, the first entry found under a key is any
member carrying that key. -/
theorem find?_eq_of_mem_of_nodup (l : List (String × String))
    (k : String) (kv : String × String)
    (hnd : (l.map Prod.fst).Nodup) (hm : kv ∈ l) (hk : kv.1 = k) :
    l.find? (fun x => x.1 == k) = some kv := by
  induction l with
  | nil => cases hm
  | cons head rest ih =>
    simp only [List.map_cons, List.nodup_cons] at hnd
    rcases List.mem_cons.mp hm with rfl | hmrest
    · simp [List.find?, hk]
    · have hhead : ¬ (head.1 == k) = true := by
        intro hbeq
        apply hnd.1
        rw [show head.1 = k from by simpa using hbeq, ← hk]
        exact List.mem_map_of_mem Prod.fst hmrest
      simp only [List.find?, hhead]
      exact ih hnd.2 hmrest

/-- The rendered value of a parameter is unchanged by reordering the
parameter list, as long as keys are not duplicated. -/
theorem qlookup_perm (q1 q2 : List (String × String))
    (hperm : q1.Perm q2) (hnd : (q1.map Prod.fst).Nodup) (k : String) :
    qlookup q1 k = qlookup q2 k := by
  have hnd2 : (q2.map Prod.fst).Nodup := (hperm.map Prod.fst).nodup hnd
  cases hfind : q1.find? (fun x => x.1 == k) with
  | none =>
    have habsent := List.find?_eq_none.mp hfind
    have habsent2 : q2.find? (fun x => x.1 == k) = none :=
      List.find?_eq_none.mpr fun kv hm => habsent kv (hperm.mem_iff.mpr hm)
    simp [qlookup, hfind, habsent2]
  | some kv =>
    have hm : kv ∈ q1 := List.mem_of_find?_eq_some hfind
    have hk : kv.1 = k := by simpa using List.find?_some hfind
    have hfind2 : q2.find? (fun x => x.1 == k) = some kv :=
      find?_eq_of_mem_of_nodup q2 k kv hnd2 (hperm.mem_iff.mp hm) hk
    simp [qlookup, hfind, hfind2]

/-- C6: generateKey is invariant under reordering of the parameter
map's entries (same key-value pairs, any insertion order, no duplicate
keys), and two different prefixes never produce the same key for the
same parameter map. -/
theorem generateKey_order_invariant_and_distinct (p p1 p2 : String)
    (q q1 q2 : List (String × String)) :
    (q1.Perm q2 → (q1.map Prod.fst).Nodup →
      Cache.generateKey p q1 = Cache.generateKey p q2) ∧
    (p1 ≠ p2 → Cache.generateKey p1 q ≠ Cache.generateKey p2 q) := by
  constructor
  · intro hperm hnd
    have hkeys : List.insertionSort strLeR (q1.map Prod.fst) =
        List.insertionSort strLeR (q2.map Prod.fst) :=
      List.eq_of_perm_of_sorted
        ((List.perm_insertionSort strLeR (q1.map Prod.fst)).trans
          ((hperm.map Prod.fst).trans
            (List.perm_insertionSort strLeR (q2.map Prod.fst)).symm))
        (List.sorted_insertionSort strLeR (q1.map Prod.fst))
        (List.sorted_insertionSort strLeR (q2.map Prod.fst))
    have hfun : (fun k => k ++ ":" ++ qlookup q1 k) =
        (fun k => k ++ ":" ++ qlookup q2 k) :=
      funext fun k => by rw [qlookup_perm q1 q2 hperm hnd k]
    unfold Cache.generateKey
    rw [hkeys, hfun]
  · intro hne heq
    apply hne
    unfold Cache.generateKey at heq
    have hdata := congrArg String.data heq
    simp only [String.data_append] at hdata
    exact String.ext
      (List.append_cancel_right (List.append_cancel_right hdata))

/-- Witness for C6: a two-entry parameter map in both insertion orders
produces the same key, and the same map under the prefixes search and
metadata produces different keys. -/
theorem generateKey_order_invariant_and_distinct_witness :
    ([("b", "2"), ("a", "1")] : List (String × String)).Perm
      [("a", "1"), ("b", "2")] ∧
    Cache.generateKey "search" [("b", "2"), ("a", "1")] =
      Cache.generateKey "search" [("a", "1"), ("b", "2")] ∧
    Cache.generateKey "search" [("a", "1"), ("b", "2")] ≠
      Cache.generateKey "metadata" [("a", "1"), ("b", "2")] :=
  ⟨List.Perm.swap ("a", "1") ("b", "2") [],
    (generateKey_order_invariant_and_distinct "search" "" ""
        [] [("b", "2"), ("a", "1")] [("a", "1"), ("b", "2")]).1
      (List.Perm.swap ("a", "1") ("b", "2") []) (by decide),
    (generateKey_order_invariant_and_distinct "" "search" "metadata"
        [("a", "1"), ("b", "2")] [] []).2 (by decide)⟩

/-- Keys generated under prefixes that differ at some character
position (within both prefixes) are always distinct, whatever the
parameter maps are. -/
theorem generateKey_ne_of_char_diff (p1 p2 : String) (n : Nat)
    (h1 : n < p1.data.length) (h2 : n < p2.data.length)
    (hne : p1.data[n]? ≠ p2.data[n]?)
    (q1 q2 : List (String × String)) :
    Cache.generateKey p1 q1 ≠ Cache.generateKey p2 q2 := by
  intro heq
  apply hne
  unfold Cache.generateKey at heq
  have hdata := congrArg String.data heq
  simp only [String.data_append] at hdata
  have hchar := congrArg (fun l => l[n]?) hdata
  simp only at hchar
  rw [List.append_assoc, List.append_assoc, List.getElem?_append_left h1,
    List.getElem?_append_left h2] at hchar
  exact hchar

/-- The cache keys that the other client operations generate: each is
produced by Cache.generateKey under one of the five operation
prefixes used by searchSong, getLyricsByMetadata, getUnsynced,
getSynced and findLyrics. -/
def keyFromOtherOp (key : String) : Prop :=
  ∃ pfx params,
    pfx ∈ (["search", "lyrics_by_metadata", "unsynced", "synced",
      "metadata"] : List String) ∧
    key = Cache.generateKey pfx params

/-- No key generated by another client operation collides with a
lyrics_by_id key. -/
theorem keyFromOtherOp_ne_byId (key : String) (h : keyFromOtherOp key)
    (params : List (String × String)) :
    key ≠ Cache.generateKey "lyrics_by_id" params := by
  obtain ⟨pfx, ps, hmem, hkey⟩ := h
  subst hkey
  simp only [List.mem_cons, List.mem_singleton] at hmem
  rcases hmem with rfl | rfl | rfl | rfl | rfl | hfalse
  · exact generateKey_ne_of_char_diff _ _ 0 (by decide) (by decide)
      (by decide) ps params
  · exact generateKey_ne_of_char_diff _ _ 10 (by decide) (by decide)
      (by decide) ps params
  · exact generateKey_ne_of_char_diff _ _ 0 (by decide) (by decide)
      (by decide) ps params
  · exact generateKey_ne_of_char_diff _ _ 0 (by decide) (by decide)
      (by decide) ps params
  · exact generateKey_ne_of_char_diff _ _ 0 (by decide) (by decide)
      (by decide) ps params
  · cases hfalse

/-- C8: in every client state whose cached entries were stored by the
other operations (their keys carry one of the five other operation
prefixes), getLyricsById fails with an error — a wrapped RateLimitError
or the stub's NotFoundError — and never returns a FormattedLyrics
value, for every trackId and every options value. -/
theorem getLyricsById_always_fails (options : ClientOptionsR)
    (cache : Cache CachedValue) (rl : RateLimiter) (now : Nat)
    (trackId : Int) (lyricsOptions : LyricsOptions)
    (hkeys : ∀ kv ∈ cache.entries, keyFromOtherOp kv.1) :
    ∃ e, Client.getLyricsById options cache rl now trackId lyricsOptions =
      Except.error e := by
  have hmiss : ∀ key params, key = Cache.generateKey "lyrics_by_id" params →
      cache.entries.find? (fun kv => kv.1 == key) = none := by
    intro key params hkey
    refine List.find?_eq_none.mpr fun kv hm hbeq => ?_
    exact keyFromOtherOp_ne_byId kv.1 (hkeys kv hm) params
      (by rw [hkey] at hbeq; simpa using hbeq)
  unfold Client.getLyricsById
  have hget : ∀ params, (cache.get now
      (Cache.generateKey "lyrics_by_id" params)).1 = none := by
    intro params
    unfold Cache.get
    rw [hmiss _ params rfl]
  simp only [hget]
  cases hrl : (if options.enableRateLimit
      then (rl.checkLimit (now : Int)).1 else Except.ok ()) with
  | error e => simp
  | ok u => simp

/-- Witness for C8: a freshly constructed client (empty cache, default
options and limiter) at a concrete trackId. -/
theorem getLyricsById_always_fails_witness :
    ∃ e, Client.getLyricsById
        { enableCache := true, cacheTTL := 300000, enableRateLimit := true,
          maxRequestsPerMinute := 60, requestTimeout := 10000 }
        ⟨[], 300000⟩ (RateLimiter.init 60 60000 0) 0 123
        { synced := none, includeMetadata := none, format := none } =
      Except.error e :=
  getLyricsById_always_fails _ _ _ _ _ _ (by simp)

/-- Row 0 of the table is the column index. -/
theorem levD_row_zero (s1 s2 : List Char) (i : Nat) :
    levD s1 s2 0 i = i := by
  simp [levD]

/-- Column 0 of the table is the row index. -/
theorem levD_col_zero (s1 s2 : List Char) (j : Nat) :
    levD s1 s2 j 0 = j := by
  cases j <;> simp [levD]

/-- The inner-cell recurrence. -/
theorem levD_succ_succ (s1 s2 : List Char) (j i : Nat) :
    levD s1 s2 (j+1) (i+1) =
    min (levD s1 s2 (j+1) i + 1)
      (min (levD s1 s2 j (i+1) + 1)
        (levD s1 s2 j i +
          (if s1.getD i ' ' = s2.getD j ' ' then 0 else 1))) := by
  rw [levD]

/-- The Levenshtein table is symmetric: the distance between prefixes
of s1 and s2 equals the distance between the corresponding prefixes of
s2 and s1. -/
theorem levD_symm (s1 s2 : List Char) :
    ∀ j i, levD s1 s2 j i = levD s2 s1 i j := by
  intro j
  induction j with
  | zero =>
    intro i
    rw [levD_row_zero, levD_col_zero]
  | succ j ihj =>
    intro i
    induction i with
    | zero => rw [levD_col_zero, levD_row_zero]
    | succ i ihi =>
      rw [levD_succ_succ, levD_succ_succ, ihi, ihj i, ihj (i+1)]
      have hcost : (if s1.getD i ' ' = s2.getD j ' ' then (0 : Nat) else 1) =
          (if s2.getD j ' ' = s1.getD i ' ' then (0 : Nat) else 1) := by
        by_cases h : s1.getD i ' ' = s2.getD j ' '
        · rw [if_pos h, if_pos h.symm]
        · rw [if_neg h, if_neg (fun hsym => h hsym.symm)]
      rw [hcost]
      omega

/-- Every table cell is bounded by the larger prefix length, so the
final distance never exceeds the longer string's length. -/
theorem levD_le_max (s1 s2 : List Char) :
    ∀ j i, levD s1 s2 j i ≤ max i j := by
  intro j
  induction j with
  | zero =>
    intro i
    rw [levD_row_zero]
    omega
  | succ j ihj =>
    intro i
    induction i with
    | zero =>
      rw [levD_col_zero]
      omega
    | succ i ihi =>
      rw [levD_succ_succ]
      have hsub := ihj i
      have hcost : (if s1.getD i ' ' = s2.getD j ' ' then (0 : Nat) else 1)
          ≤ 1 := by
        by_cases h : s1.getD i ' ' = s2.getD j ' '
        · rw [if_pos h]
          omega
        · rw [if_neg h]
      omega

/-- Normalized-equal inputs take the early-return branch. -/
theorem calcSim_of_normEq (a b : String)
    (h : jsTrim (jsToLower a) = jsTrim (jsToLower b)) :
    calculateSimilarity a b = 1 := by
  simp only [calculateSimilarity]
  rw [if_pos h]

/-- Both normalized strings empty (and hence equal-length 0) also
yield 1 through the division guard. -/
theorem calcSim_of_maxZero (a b : String)
    (h : ¬ jsTrim (jsToLower a) = jsTrim (jsToLower b))
    (hm : max (jsTrim (jsToLower a)).length
      (jsTrim (jsToLower b)).length = 0) :
    calculateSimilarity a b = 1 := by
  simp only [calculateSimilarity]
  rw [if_neg h, if_pos hm]

/-- The generic branch: one minus the normalized distance, over ℚ. -/
theorem calcSim_of_ne (a b : String)
    (h : ¬ jsTrim (jsToLower a) = jsTrim (jsToLower b))
    (hm : ¬ max (jsTrim (jsToLower a)).length
      (jsTrim (jsToLower b)).length = 0) :
    calculateSimilarity a b =
      (((max (jsTrim (jsToLower a)).length
          (jsTrim (jsToLower b)).length : Nat) : ℚ) -
        ((levD (jsTrim (jsToLower a)).data (jsTrim (jsToLower b)).data
          (jsTrim (jsToLower b)).length (jsTrim (jsToLower a)).length
          : Nat) : ℚ)) /
      ((max (jsTrim (jsToLower a)).length
        (jsTrim (jsToLower b)).length : Nat) : ℚ) := by
  simp only [calculateSimilarity]
  rw [if_neg h, if_neg hm]

/-- C7: calculateSimilarity is symmetric, its value lies in [0, 1],
and strings equal after lowercasing and trimming — the empty pair
included — score exactly 1. -/
theorem calculateSimilarity_props (a b : String) :
    calculateSimilarity a b = calculateSimilarity b a ∧
    0 ≤ calculateSimilarity a b ∧ calculateSimilarity a b ≤ 1 ∧
    (jsTrim (jsToLower a) = jsTrim (jsToLower b) →
      calculateSimilarity a b = 1) := by
  refine ⟨?_, ?_, ?_, fun h => calcSim_of_normEq a b h⟩
  · by_cases h : jsTrim (jsToLower a) = jsTrim (jsToLower b)
    · rw [calcSim_of_normEq a b h, calcSim_of_normEq b a h.symm]
    · by_cases hm : max (jsTrim (jsToLower a)).length
          (jsTrim (jsToLower b)).length = 0
      · rw [calcSim_of_maxZero a b h hm,
          calcSim_of_maxZero b a (fun hba => h hba.symm)
            (by rw [Nat.max_comm]; exact hm)]
      · rw [calcSim_of_ne a b h hm,
          calcSim_of_ne b a (fun hba => h hba.symm)
            (by rw [Nat.max_comm]; exact hm),
          Nat.max_comm (jsTrim (jsToLower b)).length
            (jsTrim (jsToLower a)).length,
          levD_symm (jsTrim (jsToLower b)).data (jsTrim (jsToLower a)).data
            (jsTrim (jsToLower a)).length (jsTrim (jsToLower b)).length]
  · by_cases h : jsTrim (jsToLower a) = jsTrim (jsToLower b)
    · rw [calcSim_of_normEq a b h]
      norm_num
    · by_cases hm : max (jsTrim (jsToLower a)).length
          (jsTrim (jsToLower b)).length = 0
      · rw [calcSim_of_maxZero a b h hm]
        norm_num
      · rw [calcSim_of_ne a b h hm]
        have hd := levD_le_max (jsTrim (jsToLower a)).data
          (jsTrim (jsToLower b)).data (jsTrim (jsToLower b)).length
          (jsTrim (jsToLower a)).length
        have hlen1 : (jsTrim (jsToLower a)).data.length =
            (jsTrim (jsToLower a)).length := rfl
        have hlen2 : (jsTrim (jsToLower b)).data.length =
            (jsTrim (jsToLower b)).length := rfl
        have hcast : ((levD (jsTrim (jsToLower a)).data
            (jsTrim (jsToLower b)).data (jsTrim (jsToLower b)).length
            (jsTrim (jsToLower a)).length : Nat) : ℚ) ≤
            ((max (jsTrim (jsToLower a)).length
              (jsTrim (jsToLower b)).length : Nat) : ℚ) :=
          Nat.cast_le.mpr hd
        have hpos : (0 : ℚ) < ((max (jsTrim (jsToLower a)).length
            (jsTrim (jsToLower b)).length : Nat) : ℚ) :=
          Nat.cast_pos.mpr (Nat.pos_of_ne_zero hm)
        apply div_nonneg
        · linarith
        · linarith
  · by_cases h : jsTrim (jsToLower a) = jsTrim (jsToLower b)
    · rw [calcSim_of_normEq a b h]
    · by_cases hm : max (jsTrim (jsToLower a)).length
          (jsTrim (jsToLower b)).length = 0
      · rw [calcSim_of_maxZero a b h hm]
      · rw [calcSim_of_ne a b h hm]
        have hpos : (0 : ℚ) < ((max (jsTrim (jsToLower a)).length
            (jsTrim (jsToLower b)).length : Nat) : ℚ) :=
          Nat.cast_pos.mpr (Nat.pos_of_ne_zero hm)
        rw [div_le_one hpos]
        have hdq : (0 : ℚ) ≤ ((levD (jsTrim (jsToLower a)).data
            (jsTrim (jsToLower b)).data (jsTrim (jsToLower b)).length
            (jsTrim (jsToLower a)).length : Nat) : ℚ) :=
          Nat.cast_nonneg _
        linarith

/-- Witness for C7: both inputs empty — equal after normalization, so
the score is exactly 1. -/
theorem calculateSimilarity_props_witness :
    calculateSimilarity "" "" = 1 :=
  (calculateSimilarity_props "" "").2.2.2 rfl
